import Mathlib

/-!
Verification of the pelican-jupyter plugin (sources: `pelican_jupyter/core.py`
and `pelican_jupyter/markup.py`).

The Python code is shallowly embedded: pure string/list manipulations become
Lean functions over `String` / `List Char`; the external collaborators
(nbconvert exporter, Pelican `MarkdownReader`, the stdlib `HTMLParser`
tokenizer, BeautifulSoup) are abstracted as parameters or as event streams,
exactly at the boundary where the repository's own code calls them.
Python `int` is modelled as `Int`, Python `None`-able values as `Option`.
-/

namespace PelicanJupyter

/-! ## Generic list/string helpers (Python semantics) -/

/-- `leadsWith nd l` is true when the needle `nd` occurs at the very start of
`l` (the `str.startswith` building block used below). -/
def leadsWith : List Char → List Char → Bool
  | [], _ => true
  | _ :: _, [] => false
  | a :: as, b :: bs => a == b && leadsWith as bs

/-- `containsSub nd hay` is true when `nd` occurs contiguously inside `hay`
(Python's `nd in hay` on strings). -/
def containsSub (nd : List Char) : List Char → Bool
  | [] => leadsWith nd []
  | c :: rest => leadsWith nd (c :: rest) || containsSub nd rest

/-- String-level substring test: `hasSubstr hay nd` is `nd in hay`. -/
def hasSubstr (hay nd : String) : Bool :=
  containsSub nd.data hay.data

/-- Index of the leftmost occurrence of `nd` in the remaining haystack,
counting from `i`; `none` when absent.  Helper for `strFind`. -/
def findSubAux (nd : List Char) : List Char → Nat → Option Nat
  | [], i => if leadsWith nd [] then some i else none
  | c :: rest, i =>
    if leadsWith nd (c :: rest) then some i else findSubAux nd rest (i + 1)

/-- Python `hay.find(nd)`: index of the leftmost occurrence, `-1` if absent. -/
def strFind (hay nd : String) : Int :=
  match findSubAux nd.data hay.data 0 with
  | some i => (i : Int)
  | none => -1

/-- Character-slice helpers (Python string slicing is by code point, which
matches `List Char`). -/
def strDropChars (s : String) (n : Nat) : String :=
  String.mk (s.data.drop n)

def strTakeChars (s : String) (n : Nat) : String :=
  String.mk (s.data.take n)

/-! ## Cell-Range Selector (`core.py`, `SubCell.preprocess`, lines 375-389)

The notebook is an ordered cell list; `preprocess` deep-copies the notebook
and slices its cell list with `nbc.cells[self.start : self.end]`.  The value
semantics of the Lean embedding plays the role of `deepcopy`: the input
notebook value is never modified. -/

structure Cell where
  cell_type : String
  source : String
deriving DecidableEq

structure Notebook where
  cells : List Cell
deriving DecidableEq

/-- CPython bound normalization for a slice index over a sequence of length
`n` (negative indices count from the end, out-of-range indices clamp). -/
def pyBound (n : Nat) (i : Int) : Nat :=
  if i < 0 then (i + n).toNat else min i.toNat n

/-- CPython slicing `xs[start:stop]` with step 1; `stop = none` is `xs[start:]`. -/
def pySlice {α : Type} (xs : List α) (start : Int) (stop : Option Int) : List α :=
  (xs.drop (pyBound xs.length start)).take
    ((match stop with
      | none => xs.length
      | some j => pyBound xs.length j) - pyBound xs.length start)

/-- `SubCell.preprocess(self, nb, resources)`: returns the deep-copied
notebook restricted to `cells[start:end]`, together with the untouched
resources. -/
def SubCell_preprocess {ρ : Type} (start : Int) (stop : Option Int)
    (nb : Notebook) (resources : ρ) : Notebook × ρ :=
  (Notebook.mk (pySlice nb.cells start stop), resources)

/-! ## CSS Normalizer (`core.py`, `parse_css`, lines 147-208)

`parse_css(content, info, fix_css, ignore_css)` combines the exporter's CSS
fragments (`info["inlining"]["css"]`) with the HTML body and the fixed
MathJax bootstrap script `LATEX_CUSTOM_SCRIPT`. -/

/-- The fixed math-rendering bootstrap script (`core.py` lines 44-73),
verbatim; braces and apostrophes appear via hexadecimal escapes. -/
def LATEX_CUSTOM_SCRIPT : String := "\n<script type=\"text/javascript\">if (!document.getElementById(\x27mathjaxscript_pelican_#%@#$@#\x27)) \x7b\n    var mathjaxscript = document.createElement(\x27script\x27);\n    mathjaxscript.id = \x27mathjaxscript_pelican_#%@#$@#\x27;\n    mathjaxscript.type = \x27text/javascript\x27;\n    mathjaxscript.src = \x27//cdnjs.cloudflare.com/ajax/libs/mathjax/2.7.1/MathJax.js?config=TeX-AMS-MML_HTMLorMML\x27;\n    mathjaxscript[(window.opera ? \"innerHTML\" : \"text\")] =\n        \"MathJax.Hub.Config(\x7b\" +\n        \"    config: [\x27MMLorHTML.js\x27],\" +\n        \"    TeX: \x7b extensions: [\x27AMSmath.js\x27,\x27AMSsymbols.js\x27,\x27noErrors.js\x27,\x27noUndefined.js\x27], equationNumbers: \x7b autoNumber: \x27AMS\x27 \x7d \x7d,\" +\n        \"    jax: [\x27input/TeX\x27,\x27input/MathML\x27,\x27output/HTML-CSS\x27],\" +\n        \"    extensions: [\x27tex2jax.js\x27,\x27mml2jax.js\x27,\x27MathMenu.js\x27,\x27MathZoom.js\x27],\" +\n        \"    displayAlign: \x27center\x27,\" +\n        \"    displayIndent: \x270em\x27,\" +\n        \"    showMathMenu: true,\" +\n        \"    tex2jax: \x7b \" +\n        \"        inlineMath: [ [\x27$\x27,\x27$\x27] ], \" +\n        \"        displayMath: [ [\x27$$\x27,\x27$$\x27] ],\" +\n        \"        processEscapes: true,\" +\n        \"        preview: \x27TeX\x27,\" +\n        \"    \x7d, \" +\n        \"    \x27HTML-CSS\x27: \x7b \" +\n        \" linebreaks: \x7b automatic: true, width: \x2795% container\x27 \x7d, \" +\n        \"        styles: \x7b \x27.MathJax_Display, .MathJax .mo, .MathJax .mi, .MathJax .mn\x27: \x7bcolor: \x27black ! important\x27\x7d \x7d\" +\n        \"    \x7d \" +\n        \"\x7d); \";\n    (document.body || document.getElementsByTagName(\x27head\x27)[0]).appendChild(mathjaxscript);\n\x7d\n</script>\n"

/-- The exporter info consumed by `parse_css`: the CSS fragment list found
under `info["inlining"]["css"]`. -/
structure ExporterInfo where
  inliningCss : List String
deriving DecidableEq

/-- `style_tag(styles)`: wrap CSS text in a style element. -/
def style_tag (styles : String) : String :=
  "<style type=\"text/css\">" ++ styles ++ "</style>"

/-- First marker comment: `/*!\n*\n* IPython notebook\n*\n*/`. -/
def nbMarker : String := "/*!\n*\n* IPython notebook\n*\n*/"

/-- Second marker comment: `/*!\n*\n* IPython notebook webapp\n*\n*/`. -/
def webappMarker : String := "/*!\n*\n* IPython notebook webapp\n*\n*/"

/-! ### The two fixed regular expressions of `filter_css`

`re.sub(r"color\:\#0+(;)?", "", style)` and
`re.sub(r"\.rendered_html[a-z0-9,._ ]*\{[a-z0-9:;%.#\-\s\n]+\}", "", style)`.
Both patterns are backtracking-free: every repeated character class excludes
the character the pattern requires next, so the greedy maximal run is the
only possible match.  `reSubAll` is `re.sub(pattern, "", s)`: it scans left
to right, replacing each leftmost non-overlapping match with the empty
string; the fuel argument (`length + 1`) is enough because every match
consumes at least one character. -/

/-- Character class `[a-z0-9,._ ]`. -/
def isClassA (c : Char) : Bool :=
  (97 ≤ c.toNat && c.toNat ≤ 122) || (48 ≤ c.toNat && c.toNat ≤ 57) ||
    c.toNat == 44 || c.toNat == 46 || c.toNat == 95 || c.toNat == 32

/-- Python `\s` for text patterns: ASCII and Unicode whitespace. -/
def isPySpace (c : Char) : Bool :=
  c.toNat == 32 || c.toNat == 9 || c.toNat == 10 || c.toNat == 13 ||
    c.toNat == 12 || c.toNat == 11 || c.toNat == 28 || c.toNat == 29 ||
    c.toNat == 30 || c.toNat == 31 || c.toNat == 133 || c.toNat == 160 ||
    c.toNat == 5760 || (8192 ≤ c.toNat && c.toNat ≤ 8202) ||
    c.toNat == 8232 || c.toNat == 8233 || c.toNat == 8239 ||
    c.toNat == 8287 || c.toNat == 12288

/-- Character class `[a-z0-9:;%.#\-\s\n]`. -/
def isClassB (c : Char) : Bool :=
  (97 ≤ c.toNat && c.toNat ≤ 122) || (48 ≤ c.toNat && c.toNat ≤ 57) ||
    c.toNat == 58 || c.toNat == 59 || c.toNat == 37 || c.toNat == 46 ||
    c.toNat == 35 || c.toNat == 45 || isPySpace c

def colorNeedle : List Char := "color:#".data

def renderedNeedle : List Char := ".rendered_html".data

/-- Match `color\:\#0+(;)?` at the head of `l`; on success return the
remainder after the match. -/
def matchColorBlack (l : List Char) : Option (List Char) :=
  if leadsWith colorNeedle l then
    let r := l.drop colorNeedle.length
    let zs := r.takeWhile (fun c => c.toNat == 48)
    if zs.length == 0 then none
    else
      match r.drop zs.length with
      | d :: r3 => if d.toNat == 59 then some r3 else some (d :: r3)
      | [] => some []
  else none

/-- Match `\.rendered_html[a-z0-9,._ ]*\{[a-z0-9:;%.#\-\s\n]+\}` at the head
of `l`; on success return the remainder after the match. -/
def matchRendered (l : List Char) : Option (List Char) :=
  if leadsWith renderedNeedle l then
    let r := l.drop renderedNeedle.length
    match r.dropWhile isClassA with
    | c :: r3 =>
      if c.toNat == 123 then
        let body := r3.takeWhile isClassB
        if body.length == 0 then none
        else
          match r3.drop body.length with
          | d :: r5 => if d.toNat == 125 then some r5 else none
          | [] => none
      else none
    | [] => none
  else none

/-- `re.sub(pattern, "", s)` driven by a head matcher `m`. -/
def reSubAll (m : List Char → Option (List Char)) : Nat → List Char → List Char
  | 0, l => l
  | _ + 1, [] => []
  | fuel + 1, c :: rest =>
    match m (c :: rest) with
    | some remaining => reSubAll m fuel remaining
    | none => c :: reSubAll m fuel rest

/-- `re.sub(r"color\:\#0+(;)?", "", style)`. -/
def subColorBlack (l : List Char) : List Char :=
  reSubAll matchColorBlack (l.length + 1) l

/-- `re.sub(r"\.rendered_html[a-z0-9,._ ]*\{...\}", "", style)`. -/
def subRendered (l : List Char) : List Char :=
  reSubAll matchRendered (l.length + 1) l

/-- Both regex clean-ups, in source order. -/
def cleanCss (style : String) : String :=
  String.mk (subRendered (subColorBlack style.data))

/-- First narrowing step of `filter_css`: `index = style.find(nbMarker);
if index > 0: style = style[index:]`. -/
def narrowNb (style : String) : String :=
  if strFind style nbMarker > 0 then
    strDropChars style (strFind style nbMarker).toNat
  else style

/-- Second narrowing step: `index = style.find(webappMarker);
if index > 0: style = style[:index]`. -/
def cutWebapp (style : String) : String :=
  if strFind style webappMarker > 0 then
    strTakeChars style (strFind style webappMarker).toNat
  else style

/-- `filter_css(style)` (`core.py` lines 169-190). -/
def filter_css (style : String) : String :=
  style_tag (cleanCss (cutWebapp (narrowNb style)))

/-- Spec-side narrowing, following the spec's words for claim C5: locate the
IPython-notebook marker and keep the text from that marker onward (whenever
the marker is present). -/
def narrowNbSpec (style : String) : String :=
  match findSubAux nbMarker.data style.data 0 with
  | some i => strDropChars style i
  | none => style

/-- Claim C5 as stated: if the webapp marker is present, cut the text at it. -/
def cutWebappClaim (style : String) : String :=
  match findSubAux webappMarker.data style.data 0 with
  | some i => strTakeChars style i
  | none => style

/-- Amended claim C5: cut at the webapp marker only when it occurs at a
positive character index. -/
def cutWebappAmended (style : String) : String :=
  match findSubAux webappMarker.data style.data 0 with
  | some i => if 0 < i then strTakeChars style i else style
  | none => style

/-- The per-fragment transformation claim C5 literally describes. -/
def filterCssClaim (style : String) : String :=
  style_tag (cleanCss (cutWebappClaim (narrowNbSpec style)))

/-- The per-fragment transformation of the amended claim C5. -/
def filterCssAmended (style : String) : String :=
  style_tag (cleanCss (cutWebappAmended (narrowNbSpec style)))

/-- `parse_css(content, info, fix_css, ignore_css)` (`core.py` 147-208). -/
def parse_css (content : String) (info : ExporterInfo)
    (fix_css ignore_css : Bool) : String :=
  if ignore_css then content ++ LATEX_CUSTOM_SCRIPT
  else if fix_css then
    String.intercalate "\n" (info.inliningCss.map filter_css) ++ content ++
      LATEX_CUSTOM_SCRIPT
  else
    String.intercalate "\n" (info.inliningCss.map style_tag) ++ content ++
      LATEX_CUSTOM_SCRIPT

/-! ## Markup Cleaner (`core.py`, `soup_fix`, lines 236-332)

`soup_fix` first checks `if BeautifulSoup is None: return content`.  The
availability of the external DOM library, and the DOM transformation it
performs when present (lines 273-332, pure calls into BeautifulSoup), are
modelled by an `Option`-wrapped transformation function. -/

structure SoupFlags where
  add_permalink : Bool
  remove_prompts : Bool
  remove_anchor_links : Bool
  remove_collapsers : Bool
  simplify_structure : Bool
deriving DecidableEq

/-- `soup_fix(content, ...)`: `bsoup = none` models `BeautifulSoup is None`
(import failed); `bsoup = some transform` models the available library
performing the DOM-level clean-up. -/
def soup_fix (bsoup : Option (SoupFlags → String → String))
    (content : String) (flags : SoupFlags) : String :=
  match bsoup with
  | none => content
  | some transform => transform flags content

/-! ## Summary Extractor (`markup.py`, `MyHTMLParser`, lines 194-258)

The parser extends Pelican's `HTMLReader._HTMLParser`, which maintains the
growing `_data_buffer` and turns the HTML text into a stream of
start-tag/end-tag callbacks.  That external tokenizer is modelled as a list
of events, each carrying the `_data_buffer` value as it stands when the
repository's own handler code runs (the parent class handler has already
been invoked at that point). -/

/-- A stop-tag entry: tag name plus optional exact attribute condition. -/
abbrev StopTag := String × Option (String × String)

/-- The default stop-tag list of `MyHTMLParser.__init__`. -/
def defaultStopTags : List StopTag :=
  [("div", some ("class", "input")),
   ("div", some ("class", "output")),
   ("h2", some ("id", "Header-2"))]

/-- `MyHTMLParser.__init__` stop-tag setup (`markup.py` lines 218-227),
with Python aliasing made explicit.  Inputs: the settings entries
`IPYNB_STOP_SUMMARY_TAGS` and `IPYNB_EXTEND_STOP_SUMMARY_TAGS` (`none` when
the key is absent).  Output: the parser's `stop_tags` list, and the list the
settings map holds after construction (`none` when the key is absent).
`settings.get` returns the very list object stored in the settings map, so
the subsequent in-place `list.extend` mutates that shared object; with the
default, `extend` mutates a fresh literal. -/
def stopTagsInit (stopSetting extendSetting : Option (List StopTag)) :
    List StopTag × Option (List StopTag) :=
  match stopSetting, extendSetting with
  | some l, some e => (l ++ e, some (l ++ e))
  | some l, none => (l, some l)
  | none, some e => (defaultStopTags ++ e, none)
  | none, none => (defaultStopTags, none)

/-- The parser configuration: `settings["SUMMARY_MAX_LENGTH"]` and the
resolved stop-tag list. -/
structure SummaryCfg where
  maxLen : Int
  stopTags : List StopTag
deriving DecidableEq

/-- The mutable state the repository's handlers touch: `self.wordcount` and
`self.summary` (initially `0` and `None`). -/
structure SummaryState where
  wordcount : Int
  summary : Option String
deriving DecidableEq

/-- `[stoptag[0] == tag and (stoptag[1] is None or stoptag[1] in attrs) for
stoptag in self.stop_tags]` followed by `any(...)`.  An attribute condition
`(a, v)` matches only the exact pair `(a, v)` among the tag's attributes
(an attribute whose value is `None` never equals a string pair). -/
def matchesStop (stopTags : List StopTag) (tag : String)
    (attrs : List (String × Option String)) : Bool :=
  stopTags.any fun st =>
    st.1 == tag &&
      (match st.2 with
       | none => true
       | some (a, v) => attrs.contains (a, some v))

/-- `MyHTMLParser.handle_starttag` (lines 229-245), after the parent handler
has extended the buffer to `buffer`. -/
def handle_starttag (cfg : SummaryCfg) (st : SummaryState) (tag : String)
    (attrs : List (String × Option String)) (buffer : String) : SummaryState :=
  if st.wordcount < cfg.maxLen then
    if matchesStop cfg.stopTags tag attrs then
      SummaryState.mk cfg.maxLen (some buffer)
    else st
  else st

/-- The stdlib `HTMLParser`-based tag stripper (`strip_tags` and
`HTMLTagStripper`, lines 261-303): the data chunks outside `<...>` tags are
collected and joined.  The stdlib tokenizer is external; this models its
data extraction on markup whose tags are `<...>` runs. -/
def stripTagsAux : Bool → List Char → List Char
  | _, [] => []
  | true, c :: r =>
    if c.toNat == 62 then stripTagsAux false r else stripTagsAux true r
  | false, c :: r =>
    if c.toNat == 60 then stripTagsAux true r else c :: stripTagsAux false r

def strip_tags (html : String) : String :=
  String.mk (stripTagsAux false html.data)

/-- Python `s.split(" ")`: split at every single space, keeping empty
pieces; the result is never the empty list (`"".split(" ") == [""]`). -/
def pySplitSpace : List Char → List (List Char)
  | [] => [[]]
  | c :: rest =>
    if c.toNat == 32 then [] :: pySplitSpace rest
    else
      match pySplitSpace rest with
      | [] => [[c]]
      | h :: t => (c :: h) :: t

/-- `MyHTMLParser.handle_endtag` (lines 247-258), after the parent handler
has extended the buffer to `buffer`:
`self.wordcount = len(strip_tags(self._data_buffer).split(" "))`, then the
summary freezes when the maximum is reached. -/
def handle_endtag (cfg : SummaryCfg) (st : SummaryState) (buffer : String) :
    SummaryState :=
  if st.wordcount < cfg.maxLen then
    if cfg.maxLen ≤ ((pySplitSpace (strip_tags buffer).data).length : Int) then
      SummaryState.mk ((pySplitSpace (strip_tags buffer).data).length : Int)
        (some buffer)
    else
      SummaryState.mk ((pySplitSpace (strip_tags buffer).data).length : Int)
        st.summary
  else st

/-- One tokenizer callback: an opening tag with its attribute list, or a
closing tag; each carries the parent parser's `_data_buffer` at the moment
the repository's handler body runs. -/
inductive SEvent where
  | start (tag : String) (attrs : List (String × Option String)) (buffer : String)
  | close (tag : String) (buffer : String)
deriving DecidableEq

def stepEvent (cfg : SummaryCfg) (st : SummaryState) : SEvent → SummaryState
  | SEvent.start tag attrs buffer => handle_starttag cfg st tag attrs buffer
  | SEvent.close _ buffer => handle_endtag cfg st buffer

/-- Run the parser over a stream of tokenizer callbacks. -/
def processEvents (cfg : SummaryCfg) (st : SummaryState) :
    List SEvent → SummaryState
  | [] => st
  | e :: rest => processEvents cfg (stepEvent cfg st e) rest

/-- Python `str.lower()` on the ASCII range (metadata keys are ASCII). -/
def pyLowerChar (c : Char) : Char :=
  if 65 ≤ c.toNat && c.toNat ≤ 90 then Char.ofNat (c.toNat + 32) else c

def pyLower (s : String) : String :=
  String.mk (s.data.map pyLowerChar)

/-- Python dict assignment `d[k] = v` on an association-list model: replace
the first binding of `k`, or append a new one. -/
def setKey : List (String × Option String) → String → Option String →
    List (String × Option String)
  | [], k, v => [(k, v)]
  | (k0, v0) :: rest, k, v =>
    if k0 == k then (k, v) :: rest else (k0, v0) :: setKey rest k v

/-- `IPythonNB._generate_summary` (`markup.py` lines 127-145).  Metadata is
an association list whose values may be `None` (the summary slot can hold
`None`).  `evs` models the tokenizer callbacks produced by feeding
`"<body>" + content + "</body>"` to the parser; the parser starts from
`wordcount = 0`, `summary = None`. -/
def generate_summary (cfg : SummaryCfg) (useMetaSummary : Bool)
    (metadata : List (String × Option String)) (evs : List SEvent) :
    List (String × Option String) :=
  if !(metadata.map (fun kv => pyLower kv.1)).contains "summary" &&
      useMetaSummary then
    setKey metadata "summary"
      (processEvents cfg (SummaryState.mk 0 none) evs).summary
  else metadata

/-! ## Metadata Resolver (`markup.py`, `IPythonNB.read`, lines 47-125)

The metadata-resolution portion of `read`.  External collaborators are
parameters of the environment: whether the `.nbdata` sidecar exists on disk,
the `(content, metadata)` Pelican's `MarkdownReader` would return for the
sidecar, the `(content, metadata)` it would return for the scratch file
holding the transformed first cell, and `ast.literal_eval` applied to a
`subcells` value.  The initial dict `{"jupyter_notebook": True}` is rebound
(not merged) by both successful branches, so it never reaches the result. -/

structure ReadEnv where
  filepath : String
  sidecarExists : Bool
  sidecarRead : String × List (String × String)
  useFirstCell : Bool
  firstCellRead : String × List (String × String)
  parseSubcells : String → Int × Option Int

/-- What the resolution computes: the metadata map, the cell range
`(start, end)` handed to `get_html_from_filepath`, and whether the
first-cell extraction path ran. -/
structure ReadOutcome where
  metadata : List (String × String)
  rangeStart : Int
  rangeEnd : Option Int
  usedFirstCell : Bool

def readErrTail : String :=
  ": Could not find metadata in: .nbdata file or in the first cell of the notebook. If this notebook is used with liquid tags then you can safely ignore this error."

/-- The exception message of `IPythonNB.read` (lines 98-102). -/
def readErrMsg (filepath : String) : String :=
  "Error processing " ++ filepath ++ readErrTail

/-- Lines 104-105: `if "subcells" in metadata: start, end =
ast.literal_eval(metadata["subcells"])`, applied to the branch-selected
defaults. -/
def applySubcells (env : ReadEnv) (md : List (String × String)) (s0 : Int)
    (e0 : Option Int) (used : Bool) : ReadOutcome :=
  match List.lookup "subcells" md with
  | some v => ReadOutcome.mk md (env.parseSubcells v).1 (env.parseSubcells v).2 used
  | none => ReadOutcome.mk md s0 e0 used

/-- The metadata-resolution state machine of `IPythonNB.read` (lines 59-105):
sidecar file first, then the first-cell path (which sets `start = 1`), else
the configuration error; afterwards a `subcells` key overrides the range. -/
def read_resolve (env : ReadEnv) : Except String ReadOutcome :=
  if env.sidecarExists then
    Except.ok (applySubcells env env.sidecarRead.2 0 none false)
  else if env.useFirstCell then
    Except.ok (applySubcells env env.firstCellRead.2 1 none true)
  else
    Except.error (readErrMsg env.filepath)

def exIsOk {ε α : Type} : Except ε α → Bool
  | Except.ok _ => true
  | Except.error _ => false

/-! ## Concrete instances used by the witness theorems -/

def nbW : Notebook :=
  Notebook.mk [Cell.mk "markdown" "# Title", Cell.mk "code" "1+1",
    Cell.mk "code" "print(2)"]

def envC3 : ReadEnv :=
  ReadEnv.mk "posts/demo.ipynb" true ("", [("title", "Post")]) true
    ("", [("date", "2020-01-01")]) (fun _ => (0, none))

def envC4 : ReadEnv :=
  ReadEnv.mk "notebooks/demo.ipynb" false ("", []) false ("", [])
    (fun _ => (0, none))

def cfgC6 : SummaryCfg := SummaryCfg.mk 50 defaultStopTags

/-! ## Theorems -/

theorem pyBound_natCast (n k : Nat) : pyBound n (k : Int) = min k n := by
  unfold pyBound
  rw [if_neg (by omega)]
  have h : ((k : Int)).toNat = k := by omega
  rw [h]

theorem drop_take_sub {α : Type} (l : List α) (s : Nat) :
    (l.drop s).take (l.length - s) = l.drop s := by
  have hlen : (l.drop s).length = l.length - s := by simp
  rw [← hlen, List.take_length]

/-- C1: `SubCell.preprocess` returns a notebook whose cell sequence is the
half-open Python slice `[start:end]` of the original: for in-range natural
bounds `start ≤ end ≤ N` the result is exactly `drop start` then
`take (end - start)`; `end = None` reaches through the last cell;
an out-of-range `end` clamps to the cell count; and the resources (like the
deep-copied input notebook value, which the pure embedding cannot mutate)
pass through untouched. -/
theorem subcell_preprocess_slices {ρ : Type} (nb : Notebook) (resources : ρ)
    (s e : Nat) (h1 : s ≤ e) (h2 : e ≤ nb.cells.length) :
    (SubCell_preprocess (s : Int) (some (e : Int)) nb resources).1.cells
        = (nb.cells.drop s).take (e - s) ∧
    (SubCell_preprocess (s : Int) none nb resources).1.cells
        = nb.cells.drop s ∧
    (∀ t : Nat, nb.cells.length ≤ t →
      (SubCell_preprocess (s : Int) (some (t : Int)) nb resources).1.cells
        = nb.cells.drop s) ∧
    (SubCell_preprocess (s : Int) (some (e : Int)) nb resources).2
        = resources := by
  have hs : pyBound nb.cells.length (s : Int) = s := by
    rw [pyBound_natCast]; omega
  have he : pyBound nb.cells.length (e : Int) = e := by
    rw [pyBound_natCast]; omega
  refine ⟨?_, ?_, ?_, rfl⟩
  · simp [SubCell_preprocess, pySlice, hs, he]
  · simp [SubCell_preprocess, pySlice, hs, drop_take_sub]
  · intro t ht
    have htb : pyBound nb.cells.length (t : Int) = nb.cells.length := by
      rw [pyBound_natCast]; omega
    simp [SubCell_preprocess, pySlice, hs, htb, drop_take_sub]

/-- C1 witness: slicing the three-cell notebook `nbW` with `[1:2]` yields
exactly its middle cell. -/
theorem subcell_preprocess_slices_witness :
    (1 : Nat) ≤ 2 ∧ (2 : Nat) ≤ nbW.cells.length ∧
    (SubCell_preprocess ((1 : Nat) : Int) (some ((2 : Nat) : Int)) nbW
      (0 : Nat)).1.cells = [Cell.mk "code" "1+1"] :=
  ⟨by decide, by decide,
   (subcell_preprocess_slices nbW (0 : Nat) 1 2 (by decide) (by decide)).1⟩

set_option maxRecDepth 20000 in
/-- C2: with `ignore_css = True`, `parse_css` returns exactly the body
content followed by the fixed math-rendering bootstrap script, for every
value of `fix_css` and every exporter info (so `ignore_css` short-circuits
`fix_css`), and the appended script contains no style element. -/
theorem parse_css_ignore_css (content : String) (info : ExporterInfo)
    (fix_css : Bool) :
    parse_css content info fix_css true = content ++ LATEX_CUSTOM_SCRIPT ∧
    hasSubstr LATEX_CUSTOM_SCRIPT "<style" = false :=
  ⟨rfl, by decide⟩

/-- C8: when BeautifulSoup is unavailable, `soup_fix` returns its input
unchanged for every content string and every combination of the toggle
switches (and, being a total function, raises no error). -/
theorem soup_fix_without_bs (content : String) (flags : SoupFlags) :
    soup_fix none content flags = content := rfl

/-- C3: when the `.nbdata` sidecar exists, `IPythonNB.read` uses the
sidecar's metadata map and never runs the first-cell extraction
(`usedFirstCell = false`), whatever the first-cell flag says; the cell
range defaults to the whole notebook (`start = 0`, `end = None`) unless a
`subcells` key overrides it. -/
theorem read_sidecar_wins (env : ReadEnv) (h : env.sidecarExists = true) :
    read_resolve env
        = Except.ok (applySubcells env env.sidecarRead.2 0 none false) ∧
    (List.lookup "subcells" env.sidecarRead.2 = none →
      read_resolve env
        = Except.ok (ReadOutcome.mk env.sidecarRead.2 0 none false)) ∧
    (∀ v, List.lookup "subcells" env.sidecarRead.2 = some v →
      read_resolve env
        = Except.ok (ReadOutcome.mk env.sidecarRead.2
            (env.parseSubcells v).1 (env.parseSubcells v).2 false)) := by
  refine ⟨by simp [read_resolve, h], ?_, ?_⟩
  · intro hl
    simp [read_resolve, h, applySubcells, hl]
  · intro v hl
    simp [read_resolve, h, applySubcells, hl]

/-- C3 witness: `envC3` has a sidecar and the first-cell flag enabled; the
resolution still returns the sidecar metadata with range `(0, None)` and
reports that the first-cell path did not run. -/
theorem read_sidecar_wins_witness :
    envC3.sidecarExists = true ∧
    read_resolve envC3
      = Except.ok (ReadOutcome.mk [("title", "Post")] 0 none false) :=
  ⟨rfl, (read_sidecar_wins envC3 rfl).2.1 (by decide)⟩

theorem leadsWith_append (nd suf : List Char) :
    leadsWith nd (nd ++ suf) = true := by
  induction nd with
  | nil => rfl
  | cons a as ih => simp [leadsWith, ih]

theorem containsSub_of_leads (nd hay : List Char)
    (h : leadsWith nd hay = true) : containsSub nd hay = true := by
  cases hay with
  | nil => simpa [containsSub] using h
  | cons c rest => simp [containsSub, h]

theorem containsSub_append_left (nd pre rest : List Char)
    (h : containsSub nd rest = true) :
    containsSub nd (pre ++ rest) = true := by
  induction pre with
  | nil => simpa using h
  | cons p ps ih => simp [containsSub, ih]

theorem hasSubstr_mid (pre mid suf : String) :
    hasSubstr (pre ++ mid ++ suf) mid = true := by
  unfold hasSubstr
  rw [String.data_append, String.data_append, List.append_assoc]
  exact containsSub_append_left _ _ _
    (containsSub_of_leads _ _ (leadsWith_append mid.data suf.data))

/-- C4: `IPythonNB.read` fails if and only if no sidecar file exists and
the first-cell-metadata flag is off, and the raised error message names the
offending file (processing of the document stops with the error, nothing
is returned). -/
theorem read_error_iff (env : ReadEnv) :
    (exIsOk (read_resolve env) = false ↔
      env.sidecarExists = false ∧ env.useFirstCell = false) ∧
    (∀ msg, read_resolve env = Except.error msg →
      hasSubstr msg env.filepath = true) := by
  constructor
  · cases h1 : env.sidecarExists with
    | true => simp [read_resolve, h1, exIsOk]
    | false =>
      cases h2 : env.useFirstCell with
      | true => simp [read_resolve, h1, h2, exIsOk]
      | false => simp [read_resolve, h1, h2, exIsOk]
  · intro msg hmsg
    unfold read_resolve at hmsg
    by_cases h1 : env.sidecarExists
    · simp [h1] at hmsg
    · by_cases h2 : env.useFirstCell
      · simp [h1, h2] at hmsg
      · simp [h1, h2] at hmsg
        rw [← hmsg]
        exact hasSubstr_mid "Error processing " env.filepath readErrTail

/-- C4 witness: with neither metadata source available, resolution for
`envC4` errors out and the message contains the notebook's path. -/
theorem read_error_iff_witness :
    exIsOk (read_resolve envC4) = false ∧
    hasSubstr (readErrMsg "notebooks/demo.ipynb") "notebooks/demo.ipynb"
      = true :=
  ⟨(read_error_iff envC4).1.mpr ⟨rfl, rfl⟩,
   (read_error_iff envC4).2 (readErrMsg "notebooks/demo.ipynb") rfl⟩

theorem narrowNb_eq_spec (s : String) : narrowNb s = narrowNbSpec s := by
  unfold narrowNb narrowNbSpec strFind
  cases h : findSubAux nbMarker.data s.data 0 with
  | none => simp [h]
  | some i =>
    cases i with
    | zero =>
      simp [h, strDropChars]
    | succ k =>
      have hp : ((k + 1 : Nat) : Int) > 0 := by omega
      have ht : ((k + 1 : Nat) : Int).toNat = k + 1 := by omega
      simp [h, hp, ht]

theorem cutWebapp_eq_amended (s : String) : cutWebapp s = cutWebappAmended s := by
  unfold cutWebapp cutWebappAmended strFind
  cases h : findSubAux webappMarker.data s.data 0 with
  | none => simp [h]
  | some i =>
    cases i with
    | zero => simp [h]
    | succ k =>
      have hp : ((k + 1 : Nat) : Int) > 0 := by omega
      have ht : ((k + 1 : Nat) : Int).toNat = k + 1 := by omega
      simp [h, hp, ht]

theorem filterCss_eq_amended (s : String) : filter_css s = filterCssAmended s := by
  unfold filter_css filterCssAmended
  rw [narrowNb_eq_spec, cutWebapp_eq_amended]

/-- C5 (amended): with `fix_css = True` and `ignore_css = False`,
`parse_css` maps every CSS fragment through the per-fragment clean-up that
keeps the text from the IPython-notebook marker onward, cuts at the webapp
marker only when that marker sits at a positive character index (a marker
at index 0 is left in place, because the source guards both cuts with
`index > 0`), strips the near-black color declarations and the
`.rendered_html` class block with the fixed regexes, and wraps each result
in a style element; the joined fragments are followed by the body and the
bootstrap script. -/
theorem parse_css_fix_css (content : String) (info : ExporterInfo) :
    parse_css content info true false =
      String.intercalate "\n" (info.inliningCss.map filterCssAmended) ++
        content ++ LATEX_CUSTOM_SCRIPT := by
  have hf : filter_css = filterCssAmended := funext filterCss_eq_amended
  simp [parse_css, hf]

set_option maxRecDepth 20000 in
/-- C5 counterexample: on a fragment that is exactly the webapp marker
comment (so the marker is present, at index 0), the code keeps the whole
marker text while the claim as stated predicts that everything from the
marker on is cut away. -/
theorem parse_css_fix_css_counterexample :
    parse_css "" (ExporterInfo.mk [webappMarker]) true false ≠
      String.intercalate "\n" ([webappMarker].map filterCssClaim) ++ "" ++
        LATEX_CUSTOM_SCRIPT := by
  decide

theorem stepEvent_frozen (cfg : SummaryCfg) (st : SummaryState)
    (h : cfg.maxLen ≤ st.wordcount) (e : SEvent) : stepEvent cfg st e = st := by
  cases e with
  | start tag attrs buffer =>
    simp [stepEvent, handle_starttag, not_lt.mpr h]
  | close tag buffer =>
    simp [stepEvent, handle_endtag, not_lt.mpr h]

theorem processEvents_frozen (cfg : SummaryCfg) (st : SummaryState)
    (h : cfg.maxLen ≤ st.wordcount) (evs : List SEvent) :
    processEvents cfg st evs = st := by
  induction evs with
  | nil => rfl
  | cons e rest ih =>
    rw [processEvents, stepEvent_frozen cfg st h e]
    exact ih

/-- C6: on an opening tag processed while the word count is below
`SUMMARY_MAX_LENGTH`, if the tag matches the stop-tag set (same tag name,
and the exact attribute pair when the entry carries one), `handle_starttag`
freezes the summary to the buffer accumulated so far and forces the word
count to the maximum, after which no later start or end tag changes the
summary. -/
theorem handle_starttag_freezes (cfg : SummaryCfg) (st : SummaryState)
    (tag : String) (attrs : List (String × Option String)) (buffer : String)
    (h1 : st.wordcount < cfg.maxLen)
    (h2 : matchesStop cfg.stopTags tag attrs = true) :
    (handle_starttag cfg st tag attrs buffer).summary = some buffer ∧
    (handle_starttag cfg st tag attrs buffer).wordcount = cfg.maxLen ∧
    ∀ evs, (processEvents cfg (handle_starttag cfg st tag attrs buffer)
      evs).summary = some buffer := by
  have hst : handle_starttag cfg st tag attrs buffer
      = SummaryState.mk cfg.maxLen (some buffer) := by
    simp [handle_starttag, h1, h2]
  refine ⟨by rw [hst], by rw [hst], ?_⟩
  intro evs
  rw [hst, processEvents_frozen cfg _ (le_refl _) evs]

/-- C6 witness: the default stop tag `("div", ("class", "input"))` freezes
the summary at the buffer accumulated so far, and a later closing tag with
a longer buffer leaves the summary untouched. -/
theorem handle_starttag_freezes_witness :
    (SummaryState.mk 0 none).wordcount < cfgC6.maxLen ∧
    matchesStop cfgC6.stopTags "div" [("class", some "input")] = true ∧
    (processEvents cfgC6
      (handle_starttag cfgC6 (SummaryState.mk 0 none) "div"
        [("class", some "input")] "<p>intro</p>")
      [SEvent.close "p" "<p>intro</p><div>x</div>"]).summary
      = some "<p>intro</p>" :=
  ⟨by decide, by decide,
   (handle_starttag_freezes cfgC6 (SummaryState.mk 0 none) "div"
     [("class", some "input")] "<p>intro</p>" (by decide) (by decide)).2.2
     [SEvent.close "p" "<p>intro</p><div>x</div>"]⟩

/-- C7 (amended): when summary generation runs (no `summary` key in the
metadata map, feature enabled) and the scan reaches no stop condition
(the parser's summary field is still `None` at the end), the step stores
the `summary` key with the null value `None` in the metadata map — it does
not leave the key absent. -/
theorem generate_summary_sets_none (cfg : SummaryCfg)
    (md : List (String × Option String)) (evs : List SEvent)
    (h1 : (md.map (fun kv => pyLower kv.1)).contains "summary" = false)
    (h2 : (processEvents cfg (SummaryState.mk 0 none) evs).summary = none) :
    generate_summary cfg true md evs = setKey md "summary" none := by
  unfold generate_summary
  rw [h1, h2]
  rfl

/-- C7 counterexample: an empty metadata map, the feature enabled, and a
scan that never reaches a stop condition: the claim as stated predicts the
map stays empty, but the code stores `summary = None` in it. -/
theorem generate_summary_counterexample :
    generate_summary (SummaryCfg.mk 50 defaultStopTags) true []
      [SEvent.start "p" [] "", SEvent.close "p" "hello"]
      = [("summary", none)] ∧
    generate_summary (SummaryCfg.mk 50 defaultStopTags) true []
      [SEvent.start "p" [] "", SEvent.close "p" "hello"] ≠ [] :=
  ⟨by decide, by decide⟩

/-- C7 witness: a metadata map with only a title, and a two-word scan far
below the maximum: the step adds `summary = None`. -/
theorem generate_summary_sets_none_witness :
    (([("title", some "T")] : List (String × Option String)).map
      (fun kv => pyLower kv.1)).contains "summary" = false ∧
    generate_summary (SummaryCfg.mk 50 defaultStopTags) true
      [("title", some "T")] [SEvent.close "p" "hi there"]
      = setKey [("title", some "T")] "summary" none :=
  ⟨by decide,
   generate_summary_sets_none (SummaryCfg.mk 50 defaultStopTags)
     [("title", some "T")] [SEvent.close "p" "hi there"]
     (by decide) (by decide)⟩

/-- C9 (code bug): when both `IPYNB_STOP_SUMMARY_TAGS` and
`IPYNB_EXTEND_STOP_SUMMARY_TAGS` are configured, `MyHTMLParser.__init__`
extends, in place, the very list object held by the settings map: after
construction the settings-held stop-tag list has grown by the extension
tags instead of being left unchanged, so mutable state leaks across
documents (each later parser extends the already-extended list again). -/
theorem stopTagsInit_mutates_settings :
    (stopTagsInit (some [("p", none)])
      (some [("div", some ("class", "output"))])).2
      = some [("p", none), ("div", some ("class", "output"))] ∧
    (stopTagsInit (some [("p", none)])
      (some [("div", some ("class", "output"))])).2
      ≠ some [("p", none)] :=
  ⟨rfl, by decide⟩

theorem pySplitSpace_length_pos (l : List Char) :
    0 < (pySplitSpace l).length := by
  cases l with
  | nil => decide
  | cons c rest =>
    unfold pySplitSpace
    cases h : (c.toNat == 32) with
    | true => simp
    | false =>
      rw [if_neg (by simp)]
      cases pySplitSpace rest <;> simp

/-- C10 (amended): on every closing tag handled while under the maximum,
the recomputed word count equals the number of space-separated tokens of
the tag-stripped buffer, which is at least 1 even for an empty stripped
buffer; consequently when `SUMMARY_MAX_LENGTH` is exactly 1 the very first
closing tag freezes the summary regardless of how many words were seen
(for a maximum of 0 or less the `wordcount < max` guard never holds, so no
closing tag ever freezes anything). -/
theorem handle_endtag_wordcount (cfg : SummaryCfg) (st : SummaryState)
    (buffer : String) (h : st.wordcount < cfg.maxLen) :
    (handle_endtag cfg st buffer).wordcount
      = ((pySplitSpace (strip_tags buffer).data).length : Int) ∧
    1 ≤ (pySplitSpace (strip_tags buffer).data).length ∧
    (cfg.maxLen = 1 →
      (handle_endtag cfg st buffer).summary = some buffer) := by
  have hpos := pySplitSpace_length_pos (strip_tags buffer).data
  refine ⟨?_, hpos, ?_⟩
  · unfold handle_endtag
    rw [if_pos h]
    split <;> rfl
  · intro hm
    have hge : cfg.maxLen
        ≤ ((pySplitSpace (strip_tags buffer).data).length : Int) := by
      rw [hm]; exact_mod_cast hpos
    unfold handle_endtag
    rw [if_pos h, if_pos hge]

/-- C10 counterexample: with `SUMMARY_MAX_LENGTH = 0` (a value the claim's
"1 (or less)" covers), the very first closing tag does not freeze the
summary — the handler is a complete no-op because `0 < 0` fails. -/
theorem handle_endtag_zero_max_counterexample :
    (handle_endtag (SummaryCfg.mk 0 defaultStopTags) (SummaryState.mk 0 none)
      "one two three").summary = none ∧
    handle_endtag (SummaryCfg.mk 0 defaultStopTags) (SummaryState.mk 0 none)
      "one two three" = SummaryState.mk 0 none :=
  ⟨rfl, rfl⟩

/-- C10 witness: with the maximum set to 1 and an empty buffer (stripped
buffer empty, still one token), the first closing tag sets the word count
to 1 and freezes the summary. -/
theorem handle_endtag_wordcount_witness :
    (SummaryState.mk 0 none).wordcount
      < (SummaryCfg.mk 1 defaultStopTags).maxLen ∧
    (handle_endtag (SummaryCfg.mk 1 defaultStopTags)
      (SummaryState.mk 0 none) "").wordcount = 1 ∧
    (handle_endtag (SummaryCfg.mk 1 defaultStopTags)
      (SummaryState.mk 0 none) "").summary = some "" :=
  ⟨by decide,
   (handle_endtag_wordcount (SummaryCfg.mk 1 defaultStopTags)
     (SummaryState.mk 0 none) "" (by decide)).1,
   (handle_endtag_wordcount (SummaryCfg.mk 1 defaultStopTags)
     (SummaryState.mk 0 none) "" (by decide)).2.2 rfl⟩

end PelicanJupyter
